import Mathlib

/-
Shallow embedding of the pyforest binary-tree library
(shunsvineyard/pyforest, directory pyforest/binary_trees) in Lean 4.

Conventions used throughout this file:
  * Python `None` for a child/parent slot is the constructor `BTree.nil`
    (functional embeddings) or a `none : Option Nat` arena index
    (pointer-based embeddings).
  * Python `int` keys are `Nat` (every key in the repository is a
    non-negative literal); the `data` payload, `str(key)` everywhere in
    the repository, is a `String`.
  * Python exceptions are the error component of `Except PyErr`.
  * Python `while` loops are fuel-indexed recursive functions; exhausting
    the fuel yields a distinguished error, so a diverging loop is
    observable.  All theorems below evaluate the embeddings on concrete
    inputs with ample fuel.
-/

/-- Modelled from the spec: the module `pyforest/tree_exceptions.py` is not
among the source files, although `binary_tree.py`, `avl_tree.py`,
`red_black_tree.py` and `threaded_binary_tree.py` import it and raise its
classes.  Per spec section 7 it defines the error kinds DuplicateKey,
KeyNotFound and EmptyTree; they are the last three constructors.  The first
four constructors are Python builtin exception kinds raised directly by code
under src (ValueError, KeyError, AttributeError on a `None` dereference,
RuntimeError), and `outOfFuel` marks a loop that did not finish
within the supplied fuel (a diverging Python loop). -/
inductive PyErr where
  | valueError : PyErr
  | keyError : PyErr
  | attributeError : PyErr
  | runtimeError : PyErr
  | duplicateKeyError : PyErr
  | keyNotFoundError : PyErr
  | emptyTreeError : PyErr
  | outOfFuel : PyErr
deriving DecidableEq, Repr

/-- A plain binary-tree node shape: `key`, `data`, `left`, `right`.  This is
the parent-free projection of the `Node` dataclasses of
`binary_search_tree.py` and `binary_tree.py`; the `parent` back-pointer is
always the exact inverse of the child pointers, so a subtree determines it
and the functional embeddings below reconstruct its effects.  Structural
equality of two distinct nodes of one tree with all-distinct keys agrees
with Python dataclass equality (distinct keys make the key comparison
decide). -/
inductive BTree where
  | nil : BTree
  | node (key : Nat) (data : String) (left right : BTree) : BTree
deriving DecidableEq, Repr

namespace BTree

/-- Number of nodes of a tree (used only for fuel bookkeeping). -/
def count : BTree → Nat
  | nil => 0
  | node _ _ l r => count l + count r + 1

end BTree

/-- Key-data output list, `traversal.OutputType`. -/
abbrev OutputType := List (Nat × String)

/-
Embedding of `pyforest/binary_trees/traversal.py`.

Python appends to a `stack` list and reads `stack[-1]` / `stack.pop()`:
those touch the END of the Python list, so the stack is modelled as a Lean
`List BTree` whose HEAD is the top.  The level-order queue appends at the
end and pops from the front (`queue.pop(0)`), modelled the same way round.
Node-to-node `==` comparisons are dataclass structural equality; on trees
with pairwise distinct keys (every tree the library can build) this
coincides with structural equality of the parent-free projection `BTree`.
-/

namespace traversal

/-- Lines 33-47, `_inorder_traverse`: recursive in-order traversal (the
output parameter becomes the return value). -/
def inorder_rec : BTree → OutputType
  | .nil => []
  | .node k d l r => inorder_rec l ++ [(k, d)] ++ inorder_rec r

/-- Lines 113-127, `_outorder_traverse`: recursive reverse in-order. -/
def outorder_rec : BTree → OutputType
  | .nil => []
  | .node k d l r => outorder_rec r ++ [(k, d)] ++ outorder_rec l

/-- Lines 193-207, `_preorder_traverse`: recursive pre-order. -/
def preorder_rec : BTree → OutputType
  | .nil => []
  | .node k d l r => [(k, d)] ++ preorder_rec l ++ preorder_rec r

/-- Lines 244-258, `_postorder_traverse`: recursive post-order. -/
def postorder_rec : BTree → OutputType
  | .nil => []
  | .node k d l r => postorder_rec l ++ postorder_rec r ++ [(k, d)]

/-- Lines 76-108, the `while True` loop of
`_inorder_traverse_non_recursive`, one constructor case per branch of the
Python conditional. -/
def inorder_nr_loop : Nat → List BTree → BTree → OutputType → Except PyErr OutputType
  | 0, _, _, _ => .error .outOfFuel
  | fuel + 1, stack, current, output =>
    match current with
    | .node _ _ l r =>
      match r with
      | .node .. => inorder_nr_loop fuel (current :: r :: stack) l output
      | .nil => inorder_nr_loop fuel (current :: stack) .nil output
    | .nil =>
      match stack with
      | [] => .ok output
      | cur :: rest =>
        match cur with
        | .nil => .error .attributeError
        | .node k d _ r =>
          match r with
          | .nil => inorder_nr_loop fuel rest .nil (output ++ [(k, d)])
          | .node .. =>
            match rest with
            | [] => inorder_nr_loop fuel rest cur output
            | top :: _ =>
              if r = top then inorder_nr_loop fuel rest .nil (output ++ [(k, d)])
              else inorder_nr_loop fuel rest cur output

/-- Lines 50-110, `_inorder_traverse_non_recursive`: the stack starts with
the root and its right child only when the root has a right child, then the
loop above runs on `current = root.left`. -/
def inorder_nr (fuel : Nat) : BTree → Except PyErr OutputType
  | .nil => .ok []
  | root@(.node _ _ l r) =>
    match r with
    | .nil => inorder_nr_loop fuel [] l []
    | .node .. => inorder_nr_loop fuel [root, r] l []

/-- Lines 156-188, the loop of `_outorder_traverse_non_recursive` (exact
left-right mirror of the in-order loop). -/
def outorder_nr_loop : Nat → List BTree → BTree → OutputType → Except PyErr OutputType
  | 0, _, _, _ => .error .outOfFuel
  | fuel + 1, stack, current, output =>
    match current with
    | .node _ _ l r =>
      match l with
      | .node .. => outorder_nr_loop fuel (current :: l :: stack) r output
      | .nil => outorder_nr_loop fuel (current :: stack) .nil output
    | .nil =>
      match stack with
      | [] => .ok output
      | cur :: rest =>
        match cur with
        | .nil => .error .attributeError
        | .node k d l _ =>
          match l with
          | .nil => outorder_nr_loop fuel rest .nil (output ++ [(k, d)])
          | .node .. =>
            match rest with
            | [] => outorder_nr_loop fuel rest cur output
            | top :: _ =>
              if l = top then outorder_nr_loop fuel rest .nil (output ++ [(k, d)])
              else outorder_nr_loop fuel rest cur output

/-- Lines 130-190, `_outorder_traverse_non_recursive`. -/
def outorder_nr (fuel : Nat) : BTree → Except PyErr OutputType
  | .nil => .ok []
  | root@(.node _ _ l r) =>
    match l with
    | .nil => outorder_nr_loop fuel [] r []
    | .node .. => outorder_nr_loop fuel [root, l] r []

/-- Lines 230-239, the loop of `_preorder_traverse_non_recursive`: pop,
emit, push right child then left child. -/
def preorder_nr_loop : Nat → List BTree → OutputType → Except PyErr OutputType
  | 0, _, _ => .error .outOfFuel
  | fuel + 1, stack, output =>
    match stack with
    | [] => .ok output
    | .nil :: _ => .error .attributeError
    | (.node k d l r) :: rest =>
      let s1 := match r with | .nil => rest | .node .. => r :: rest
      let s2 := match l with | .nil => s1 | .node .. => l :: s1
      preorder_nr_loop fuel s2 (output ++ [(k, d)])

/-- Lines 210-241, `_preorder_traverse_non_recursive`. -/
def preorder_nr (fuel : Nat) : BTree → Except PyErr OutputType
  | .nil => .ok []
  | root => preorder_nr_loop fuel [root] []

/-- Lines 287-318, the `while True` loop of
`_postorder_traverse_non_recursive`.  Note two behaviours of the source kept
faithfully: with `current = None` and an empty stack the loop body does
nothing, so the loop never ends (fuel runs out); the only normal exit is
popping a node with a right child while the rest of the stack is empty
(lines 316-318). -/
def postorder_nr_loop : Nat → List BTree → BTree → OutputType → Except PyErr OutputType
  | 0, _, _, _ => .error .outOfFuel
  | fuel + 1, stack, current, output =>
    match current with
    | .node k d l r =>
      match r with
      | .node .. => postorder_nr_loop fuel (current :: r :: stack) l output
      | .nil => postorder_nr_loop fuel stack .nil (output ++ [(k, d)])
    | .nil =>
      match stack with
      | [] => postorder_nr_loop fuel [] .nil output
      | cur :: rest =>
        match cur with
        | .nil => .error .attributeError
        | .node k d _ r =>
          match r with
          | .nil => postorder_nr_loop fuel rest .nil (output ++ [(k, d)])
          | .node .. =>
            match rest with
            | [] => .ok (output ++ [(k, d)])
            | top :: rest2 =>
              if r = top then postorder_nr_loop fuel (cur :: rest2) top output
              else postorder_nr_loop fuel rest .nil (output ++ [(k, d)])

/-- Lines 261-320, `_postorder_traverse_non_recursive`: the stack starts as
`[right child (when present), root]` and the loop runs on
`current = root.left`. -/
def postorder_nr (fuel : Nat) : BTree → Except PyErr OutputType
  | .nil => .ok []
  | root@(.node _ _ l r) =>
    match r with
    | .nil => postorder_nr_loop fuel [root] l []
    | .node .. => postorder_nr_loop fuel [root, r] l []

/-- Lines 529-537, the queue loop of `levelorder_traverse`: dequeue from the
front, read `temp.key` (an `AttributeError` when the dequeued entry is
`None`), enqueue the non-null children left then right. -/
def levelorder_loop : Nat → List BTree → OutputType → Except PyErr OutputType
  | 0, _, _ => .error .outOfFuel
  | fuel + 1, queue, output =>
    match queue with
    | [] => .ok output
    | .nil :: _ => .error .attributeError
    | (.node k d l r) :: rest =>
      let q1 := match l with | .nil => rest | .node .. => rest ++ [l]
      let q2 := match r with | .nil => q1 | .node .. => q1 ++ [r]
      levelorder_loop fuel q2 (output ++ [(k, d)])

/-- Lines 495-538, `levelorder_traverse`: the queue is seeded with
`tree.root` UNCONDITIONALLY (line 526), so an empty tree enqueues `None`
and the first dequeue dereferences it. -/
def levelorder_traverse (fuel : Nat) (root : BTree) : Except PyErr OutputType :=
  levelorder_loop fuel [root] []

end traversal

/-
Embedding of `pyforest/binary_trees/binary_search_tree.py`.

The class keeps a `root` node reference and a `_size` counter.  All methods
except `delete` read the structure top-down, so they embed directly as
functions on the parent-free projection `BTree`.  `delete` mutates the
parent of the affected node; since the parent pointers are the exact
inverse of the child pointers, assigning `x.parent.left = y` is replacing
the subtree at that child slot, which the functional embedding performs by
rebuilding the search path (`bst_delete_go` below).
-/

namespace BST

/-- The `BinarySearchTree` object state: `root` and `_size`. -/
structure T where
  root : BTree
  size : Nat
deriving DecidableEq, Repr

/-- A tree constructed with no seed pair: `root = None`, `_size = 0`. -/
def emptyTree : T := ⟨.nil, 0⟩

/-- Lines 138-167, `_insert`: recursive descent; an equal key raises
`ValueError("Duplicate key")`; otherwise a new leaf is attached at the
first empty slot on the search path.  The Python function is only called
with a non-null node; the `nil` case mirrors the `AttributeError` a `None`
argument would raise at `node.key`. -/
def _insert (key : Nat) (data : String) : BTree → Except PyErr BTree
  | .nil => .error .attributeError
  | .node k d l r =>
    if key = k then .error .valueError
    else if key < k then
      match l with
      | .node .. => do
        let l2 ← _insert key data l
        pure (.node k d l2 r)
      | .nil => pure (.node k d (.node key data .nil .nil) r)
    else
      match r with
      | .node .. => do
        let r2 ← _insert key data r
        pure (.node k d l r2)
      | .nil => pure (.node k d l (.node key data .nil .nil))

/-- Lines 294-316, `insert`: on `_size == 0` the root is replaced by a
fresh node; `_size` is incremented only when no exception was raised. -/
def insert (t : T) (key : Nat) (data : String) : Except PyErr T :=
  if t.size = 0 then pure ⟨.node key data .nil .nil, t.size + 1⟩
  else do
    let r ← _insert key data t.root
    pure ⟨r, t.size + 1⟩

/-- Lines 169-200, `_search`: recursive descent returning the matching
subtree (the Python function returns the matching node); reaching a null
child raises `KeyError`. -/
def _search (key : Nat) : BTree → Except PyErr BTree
  | .nil => .error .attributeError
  | t@(.node k _ l r) =>
    if key = k then pure t
    else if key < k then
      match l with
      | .node .. => _search key l
      | .nil => .error .keyError
    else
      match r with
      | .node .. => _search key r
      | .nil => .error .keyError

/-- Lines 270-291, `search`: an empty tree returns `None` WITHOUT
consulting `_search` (line 288, `if self._size == 0: return None`);
otherwise the data of the node `_search` found. -/
def search (t : T) (key : Nat) : Except PyErr (Option String) :=
  if t.size = 0 then pure none
  else do
    let n ← _search key t.root
    match n with
    | .node _ d _ _ => pure (some d)
    | .nil => .error .attributeError

/-- Lines 202-218, `_get_min`: follow left children to the leftmost node of
the given subtree. -/
def _get_min : BTree → BTree
  | .nil => .nil
  | t@(.node _ _ l _) =>
    match l with
    | .nil => t
    | .node .. => _get_min l

/-- Lines 341-358 of `delete`, the candidate detachment in the
two-children case: the candidate is the leftmost node of the right
subtree, and the code sets the child slot of `candidate.parent` that held
the candidate to `None` — detaching the WHOLE candidate subtree, its right
child included.  When the right subtree itself has no left child the
candidate is the right child and the slot set to `None` is
`deleting_node.right`. -/
def dropLeftmost : BTree → BTree
  | .nil => .nil
  | .node _ _ .nil _ => .nil
  | .node k d l r => .node k d (dropLeftmost l) r

/-- Lines 333-387 of `delete`, the case split at the deleting node, as the
subtree that replaces the subtree rooted there: no children → `None`
(lines 334-339); two children → the node keeps its position but takes the
key and data of the candidate found by `_get_min` on the right subtree,
and the candidate subtree is detached (lines 342-358); one child → the
child is spliced into the slot (lines 361-387). -/
def deleteCase : BTree → Except PyErr BTree
  | .nil => .error .attributeError
  | .node _ _ .nil .nil => pure .nil
  | .node _ _ l@(.node ..) r@(.node ..) =>
    match _get_min r with
    | .node ck cd _ _ => pure (.node ck cd l (dropLeftmost r))
    | .nil => .error .attributeError
  | .node _ _ l@(.node ..) .nil => pure l
  | .node _ _ .nil r@(.node ..) => pure r

/-- Descent to the node holding `key` (already known present via
`_search`), replacing the subtree rooted there by the `deleteCase`
result.  This realises the parent-pointer mutations of lines 333-387 by
rebuilding the search path. -/
def bst_delete_go (key : Nat) : BTree → Except PyErr BTree
  | .nil => .error .attributeError
  | t@(.node k d l r) =>
    if key < k then do
      let l2 ← bst_delete_go key l
      pure (.node k d l2 r)
    else if k < key then do
      let r2 ← bst_delete_go key r
      pure (.node k d l r2)
    else deleteCase t

/-- Lines 319-391, `delete`: an empty tree does nothing (line 327 guard and
closing comment); otherwise `_search` runs first (raising `KeyError` for an
absent key, line 328), then line 330 raises
`ValueError("Node's parent cannot be None")` whenever the found node has no
parent — that is, whenever the key sits at the root (the only node with a
null parent); otherwise the case split of `deleteCase` applies at the found
node and `_size` is decremented. -/
def delete (t : T) (key : Nat) : Except PyErr T :=
  if t.size ≠ 0 then do
    let _ ← _search key t.root
    match t.root with
    | .nil => .error .attributeError
    | .node k _ _ _ =>
      if key = k then .error .valueError
      else do
        let r ← bst_delete_go key t.root
        pure ⟨r, t.size - 1⟩
  else pure t

/-- Lines 220-239, `_height`: 0 for `None` and for a childless node, else
one more than the taller child subtree. -/
def _height : BTree → Nat
  | .nil => 0
  | .node _ _ .nil .nil => 0
  | .node _ _ l r => max (_height l) (_height r) + 1

/-- Lines 241-267, `_is_balance`: false as soon as the two child heights
differ by more than one, then recursion into each non-null child. -/
def _is_balance : BTree → Bool
  | .nil => true
  | .node _ _ l r =>
    if (_height l : Int) - (_height r : Int) > 1 ∨
       (_height r : Int) - (_height l : Int) > 1 then false
    else
      (match l with | .nil => true | .node .. => _is_balance l) &&
      (match r with | .nil => true | .node .. => _is_balance r)

/-- Lines 392-396, `get_min`: `None` on an empty tree (`_size == 0`), else
the key of the leftmost node. -/
def get_min (t : T) : Except PyErr (Option Nat) :=
  if t.size = 0 then pure none
  else
    match _get_min t.root with
    | .node k _ _ _ => pure (some k)
    | .nil => .error .attributeError

/-- Lines 217-224 of the class (source lines 398-408), `get_max`: `None` on
an empty tree, else follow right children from the root. -/
def get_max (t : T) : Except PyErr (Option Nat) :=
  if t.size = 0 then pure none
  else
    match go t.root with
    | .node k _ _ _ => pure (some k)
    | .nil => .error .attributeError
where
  go : BTree → BTree
    | .nil => .nil
    | t@(.node _ _ _ r) =>
      match r with
      | .nil => t
      | .node .. => go r

/-- Lines 410-412, `get_height`. -/
def get_height (t : T) : Nat := _height t.root

/-- Lines 414-425, `is_balance`: `True` on an empty tree. -/
def is_balance (t : T) : Bool :=
  if t.size = 0 then true else _is_balance t.root

/-- A sequence of (key, data) insertions performed with `insert`, stopping
at the first exception; used to build the concrete trees of the claims. -/
def insertAll (t : T) : List (Nat × String) → Except PyErr T
  | [] => pure t
  | (k, d) :: rest => do
    let t2 ← insert t k d
    insertAll t2 rest

end BST

/-
Embedding of `pyforest/binary_trees/avl_tree.py`.

The AVL code walks parent pointers upward and rotates in place, so it is
embedded against an explicit heap: an arena of node records addressed by
`Nat` indices.  A field of type `Option Nat` holds either `none` (Python
`None`) or an index (a Python object reference); object identity is index
equality, which on trees with pairwise distinct keys agrees with the
dataclass `==` the source uses.  Every method runs in a state-exception
monad over the arena; Python `while` loops take fuel, and dereferencing
`None` raises `attributeError` exactly where Python would.
-/

namespace AVL

/-- The `AVLNode` dataclass: key, data, left, right, parent, height. -/
structure AVLNode where
  key : Nat
  data : String
  left : Option Nat
  right : Option Nat
  parent : Option Nat
  height : Int
deriving DecidableEq, Repr

/-- The `AVLTree` object state: node arena and root reference. -/
structure State where
  nodes : Array AVLNode
  root : Option Nat
deriving DecidableEq, Repr

/-- A tree constructed with no seed pair. -/
def initState : State := ⟨#[], none⟩

/-- Monad of the embedded methods: mutable arena plus Python exceptions. -/
abbrev M := ExceptT PyErr (StateM State)

/-- Read the node record behind an index. -/
def readN (i : Nat) : M AVLNode := do
  match (← get).nodes[i]? with
  | some n => pure n
  | none => throw .attributeError

/-- Update the node record behind an index. -/
def writeN (i : Nat) (f : AVLNode → AVLNode) : M Unit := do
  let s ← get
  match s.nodes[i]? with
  | some n => set { s with nodes := s.nodes.set! i (f n) }
  | none => throw .attributeError

/-- Dereference a possibly-null reference (AttributeError on `None`). -/
def deref (r : Option Nat) : M AVLNode := do
  match r with
  | some i => readN i
  | none => throw .attributeError

/-- Lines 185-194, `get_height`: 0 for `None` and for a childless node,
else one more than the taller child (recomputed recursively, ignoring the
stored `height` fields). -/
def get_height (fuel : Nat) (node : Option Nat) : M Int :=
  match fuel with
  | 0 => throw .outOfFuel
  | fuel + 1 =>
    match node with
    | none => pure 0
    | some i => do
      let n ← readN i
      if n.left = none && n.right = none then pure 0
      else do
        let hl ← get_height fuel n.left
        let hr ← get_height fuel n.right
        pure (max hl hr + 1)

/-- Lines 246-249, `_balance_factor`: -1 for `None`, else the recomputed
left height minus the recomputed right height. -/
def _balance_factor (fuel : Nat) (node : Option Nat) : M Int :=
  match node with
  | none => pure (-1)
  | some i => do
    let n ← readN i
    let hl ← get_height fuel n.left
    let hr ← get_height fuel n.right
    pure (hl - hr)

/-- Lines 196-213, `_left_rotate`, statement by statement. -/
def _left_rotate (fuel : Nat) (nodeI : Nat) : M Unit := do
  let node ← readN nodeI
  let temp ← deref node.right
  let tempI := node.right.getD 0
  writeN nodeI ({ · with right := temp.left })
  match temp.left with
  | some tlI => writeN tlI ({ · with parent := some nodeI })
  | none => pure ()
  writeN tempI ({ · with parent := node.parent })
  match node.parent with
  | none => modify ({ · with root := some tempI })
  | some pI => do
    let p ← readN pI
    if p.left = some nodeI then writeN pI ({ · with left := some tempI })
    else writeN pI ({ · with right := some tempI })
  writeN tempI ({ · with left := some nodeI })
  writeN nodeI ({ · with parent := some tempI })
  let n2 ← readN nodeI
  let hl ← get_height fuel n2.left
  let hr ← get_height fuel n2.right
  writeN nodeI ({ · with height := max hl hr + 1 })
  let t2 ← readN tempI
  let hl2 ← get_height fuel t2.left
  let hr2 ← get_height fuel t2.right
  writeN tempI ({ · with height := max hl2 hr2 + 1 })

/-- Lines 215-232, `_right_rotate` (the mirror; note the source tests
`node == node.parent.right` first here). -/
def _right_rotate (fuel : Nat) (nodeI : Nat) : M Unit := do
  let node ← readN nodeI
  let temp ← deref node.left
  let tempI := node.left.getD 0
  writeN nodeI ({ · with left := temp.right })
  match temp.right with
  | some trI => writeN trI ({ · with parent := some nodeI })
  | none => pure ()
  writeN tempI ({ · with parent := node.parent })
  match node.parent with
  | none => modify ({ · with root := some tempI })
  | some pI => do
    let p ← readN pI
    if p.right = some nodeI then writeN pI ({ · with right := some tempI })
    else writeN pI ({ · with left := some tempI })
  writeN tempI ({ · with right := some nodeI })
  writeN nodeI ({ · with parent := some tempI })
  let n2 ← readN nodeI
  let hl ← get_height fuel n2.left
  let hr ← get_height fuel n2.right
  writeN nodeI ({ · with height := max hl hr + 1 })
  let t2 ← readN tempI
  let hl2 ← get_height fuel t2.left
  let hr2 ← get_height fuel t2.right
  writeN tempI ({ · with height := max hl2 hr2 + 1 })

/-- Lines 50-59 of `insert`: the descent loop (`temp`, `parent`); returns
the final `parent` reference.  An equal key raises `DuplicateKeyError`. -/
def insertDescend (key : Nat) : Nat → Option Nat → Option Nat → M (Option Nat)
  | 0, _, _ => throw .outOfFuel
  | fuel + 1, temp, parent =>
    match temp with
    | none => pure parent
    | some tI => do
      let t ← readN tI
      if key = t.key then throw .duplicateKeyError
      else if key < t.key then insertDescend key fuel t.left (some tI)
      else insertDescend key fuel t.right (some tI)

/-- Lines 70-97 of `insert`: the upward rebalancing loop.  Each step
recomputes the height of `parent`, then tests the balance factor of the
GRANDPARENT; on imbalance one of the four rotation cases runs and the loop
stops (`break`), otherwise both `parent` and `temp` move one level up. -/
def insertAscend : Nat → Option Nat → Option Nat → M Unit
  | 0, _, _ => throw .outOfFuel
  | fuel + 1, temp, parent =>
    match parent with
    | none => pure ()
    | some pI => do
      let p ← readN pI
      let hl ← get_height (fuel + 1) p.left
      let hr ← get_height (fuel + 1) p.right
      writeN pI ({ · with height := max hl hr + 1 })
      let gpO := p.parent
      let bf ← _balance_factor (fuel + 1) gpO
      if bf ≤ -2 ∨ bf ≥ 2 then do
        let g ← deref gpO
        let gI := gpO.getD 0
        if g.left = some pI then do
          let p2 ← readN pI
          if temp = p2.left then _right_rotate (fuel + 1) gI
          else if temp = p2.right then do
            _left_rotate (fuel + 1) pI
            _right_rotate (fuel + 1) gI
          else pure ()
        else if g.right = some pI then do
          let p2 ← readN pI
          if temp = p2.right then _left_rotate (fuel + 1) gI
          else if temp = p2.left then do
            _right_rotate (fuel + 1) pI
            _left_rotate (fuel + 1) gI
          else pure ()
        else pure ()
      else do
        let t ← deref temp
        insertAscend fuel t.parent p.parent

/-- Lines 48-97, `insert`: BST descent, attach the new red-free node, then
the upward loop above starting from `temp = node`, `parent = node.parent`. -/
def insert (fuel : Nat) (key : Nat) (data : String) : M Unit := do
  let s ← get
  let parentO ← insertDescend key fuel s.root none
  let nodeI := (← get).nodes.size
  modify fun st => { st with nodes := st.nodes.push ⟨key, data, none, none, parentO, 0⟩ }
  match parentO with
  | none => modify ({ · with root := some nodeI })
  | some pI => do
    let p ← readN pI
    if key < p.key then writeN pI ({ · with left := some nodeI })
    else writeN pI ({ · with right := some nodeI })
  insertAscend fuel (some nodeI) parentO

/-- Lines 34-45, `search`: iterative descent; raises `KeyNotFoundError`
when a null child is reached. -/
def search (key : Nat) : Nat → Option Nat → M Nat
  | 0, _ => throw .outOfFuel
  | fuel + 1, cur =>
    match cur with
    | none => throw .keyNotFoundError
    | some i => do
      let n ← readN i
      if key = n.key then pure i
      else if key < n.key then search key fuel n.left
      else search key fuel n.right

/-- Lines 134-146, `get_min` (with an explicit start node): follow left
children; with no start node an empty tree raises `EmptyTreeError`. -/
def get_min (fuel : Nat) (nodeO : Option Nat) : M Nat := do
  let start ← match nodeO with
    | some i => pure i
    | none =>
      match (← get).root with
      | some r => pure r
      | none => throw .emptyTreeError
  go fuel start
where
  go : Nat → Nat → M Nat
    | 0, _ => throw .outOfFuel
    | fuel + 1, i => do
      let n ← readN i
      match n.left with
      | none => pure i
      | some l => go fuel l

/-- Lines 234-244, `_transplant`: put `replacing_node` into the parent slot
of `deleting_node`, then (when non-null) repoint its parent. -/
def _transplant (dI : Nat) (rO : Option Nat) : M Unit := do
  let d ← readN dI
  match d.parent with
  | none => modify ({ · with root := rO })
  | some pI => do
    let p ← readN pI
    if p.left = some dI then writeN pI ({ · with left := rO })
    else writeN pI ({ · with right := rO })
  match rO with
  | some rI => writeN rI ({ · with parent := d.parent })
  | none => pure ()

/-- Lines 251-296, `_delete_fixup` (marked `# FIXME` in the source): walk
up from `fixing_node`, recomputing stored heights; at an unbalanced node
pick `y` as the child with the larger STORED height (dereferencing
`temp.left.height` and `temp.right.height`, an `AttributeError` when a
child is `None`), pick `z` among the children of `y` likewise, and run the
rotation case; then move to the parent. -/
def _delete_fixup : Nat → Option Nat → M Unit
  | 0, _ => throw .outOfFuel
  | fuel + 1, fixO =>
    match fixO with
    | none => pure ()
    | some fI => do
      let f ← readN fI
      let hl ← get_height (fuel + 1) f.left
      let hr ← get_height (fuel + 1) f.right
      writeN fI ({ · with height := max hl hr + 1 })
      let bf ← _balance_factor (fuel + 1) (some fI)
      if bf ≤ -2 ∨ bf ≥ 2 then do
        let temp ← readN fI
        let tlh ← do pure (← deref temp.left).height
        let trh ← do pure (← deref temp.right).height
        let yO := if tlh > trh then temp.left else temp.right
        let y ← deref yO
        let yI := yO.getD 0
        let ylh ← do pure (← deref y.left).height
        let yrh ← do pure (← deref y.right).height
        let zO :=
          if ylh > yrh then y.left
          else if ylh < yrh then y.right
          else if yO = temp.left then y.left else y.right
        if yO = temp.left then do
          let tl ← deref temp.left
          if zO = tl.left then _right_rotate (fuel + 1) fI
          else if zO = tl.right then do
            _left_rotate (fuel + 1) yI
            _right_rotate (fuel + 1) fI
          else pure ()
        else if yO = temp.right then do
          let tr ← deref temp.right
          if zO = tr.right then _left_rotate (fuel + 1) fI
          else if zO = tr.left then do
            _right_rotate (fuel + 1) yI
            _left_rotate (fuel + 1) fI
          else pure ()
        else pure ()
        let f2 ← readN fI
        _delete_fixup fuel f2.parent
      else do
        let f2 ← readN fI
        _delete_fixup fuel f2.parent

/-- Lines 100-131, `delete`: search (raising `KeyNotFoundError` when the
key is absent), then the three cases.  NOTE, kept faithfully: in the
one-or-no-child cases the fix-up runs only when the spliced-in child
exists, so deleting a LEAF never runs any fix-up at all. -/
def delete (fuel : Nat) (key : Nat) : M Unit := do
  let s ← get
  let dI ← search key fuel s.root
  let d ← readN dI
  if d.left = none then do
    _transplant dI d.right
    match d.right with
    | some _ => _delete_fixup fuel d.right
    | none => pure ()
  else if d.right = none then do
    _transplant dI d.left
    match d.left with
    | some _ => _delete_fixup fuel d.left
    | none => pure ()
  else do
    let minI ← get_min fuel d.right
    let m ← readN minI
    if m.parent ≠ some dI then do
      _transplant minI m.right
      writeN minI ({ · with right := d.right })
      match d.right with
      | some rI => writeN rI ({ · with parent := some minI })
      | none => throw .attributeError
    _transplant dI (some minI)
    writeN minI ({ · with left := d.left })
    match d.left with
    | some lI => writeN lI ({ · with parent := some minI })
    | none => throw .attributeError
    _delete_fixup fuel (some minI)

/-- Reconstruction of the parent-free tree shape below a reference, for
stating properties of an arena state. -/
def toBTree (s : State) : Nat → Option Nat → BTree
  | 0, _ => .nil
  | _ + 1, none => .nil
  | fuel + 1, some i =>
    match s.nodes[i]? with
    | none => .nil
    | some n => .node n.key n.data (toBTree s fuel n.left) (toBTree s fuel n.right)

/-- Run an embedded program from the empty tree, yielding the final arena
state (or the Python exception that escaped). -/
def run (prog : M Unit) : Except PyErr State :=
  match (ExceptT.run prog).run initState with
  | (Except.ok _, s) => .ok s
  | (Except.error e, _) => .error e

end AVL

/-- Whether every node of a tree satisfies the AVL balance condition
stated with the height convention of the code
(`get_height None = get_height leaf = 0`):
the absolute difference of the child heights is at most 1. -/
def balancedEverywhere : BTree → Bool
  | .nil => true
  | .node _ _ l r =>
    ((BST._height l : Int) - (BST._height r : Int) ≤ 1 ∧
     (BST._height r : Int) - (BST._height l : Int) ≤ 1 : Bool)
    && balancedEverywhere l && balancedEverywhere r

/-
Embedding of `pyforest/binary_trees/red_black_tree.py`.

Same arena style as the AVL embedding.  The shared `LeafNode` sentinel
(`self._NIL`) is arena index 0, created at construction; `isinstance(x,
LeafNode)` is the test `x = some 0` and `isinstance(x, RBNode)` the test
`isRB x` below (`None` is neither).  The sentinel record starts with
`left = right = parent = None` and color Black, exactly the class
attributes of `LeafNode`; the code later assigns `parent` (and in broken
states other fields) on it, which Python realises as instance attributes
on the shared sentinel — arena writes model that.  Two source lines kept
faithfully as no-ops are marked `source typo` below: lines 487 and 516
compare `sibling.color == Color.Black` instead of assigning. -/

namespace RB

/-- Colors of `red_black_tree.Color`. -/
inductive Color where
  | red : Color
  | black : Color
deriving DecidableEq, Repr

/-- Node record covering both `RBNode` and the `LeafNode` sentinel (index
0); the sentinel never has its `key`/`data` read. -/
structure RBN where
  key : Nat
  data : String
  left : Option Nat
  right : Option Nat
  parent : Option Nat
  color : Color
deriving DecidableEq, Repr

/-- The `RBTree` object state: arena (index 0 = the `_NIL` sentinel) and
the root reference (`_NIL` when empty). -/
structure State where
  nodes : Array RBN
  root : Option Nat
deriving DecidableEq, Repr

/-- A tree constructed with no seed pair: root is the sentinel. -/
def initState : State := ⟨#[⟨0, "", none, none, none, .black⟩], some 0⟩

/-- Monad of the embedded methods. -/
abbrev M := ExceptT PyErr (StateM State)

/-- Read the node record behind an index. -/
def readN (i : Nat) : M RBN := do
  match (← get).nodes[i]? with
  | some n => pure n
  | none => throw .attributeError

/-- Update the node record behind an index. -/
def writeN (i : Nat) (f : RBN → RBN) : M Unit := do
  let s ← get
  match s.nodes[i]? with
  | some n => set { s with nodes := s.nodes.set! i (f n) }
  | none => throw .attributeError

/-- Dereference a reference (AttributeError on Python `None`). -/
def deref (r : Option Nat) : M RBN := do
  match r with
  | some i => readN i
  | none => throw .attributeError

/-- Index behind a reference (AttributeError on Python `None`). -/
def refIdx (r : Option Nat) : M Nat := do
  match r with
  | some i => pure i
  | none => throw .attributeError

/-- Read `x.color` through a reference. -/
def colorOf (r : Option Nat) : M Color := do
  pure (← deref r).color

/-- Assign `x.color` through a reference. -/
def setColor (r : Option Nat) (c : Color) : M Unit := do
  writeN (← refIdx r) ({ · with color := c })

/-- The test `isinstance(x, RBNode)`: a reference that is neither `None`
nor the sentinel. -/
def isRB : Option Nat → Bool
  | some i => i ≠ 0
  | none => false

/-- Lines 136-151, `search`: descend while the reference is an `RBNode`;
falling out raises `KeyNotFoundError`. -/
def search (key : Nat) : Nat → Option Nat → M Nat
  | 0, _ => throw .outOfFuel
  | fuel + 1, r =>
    if isRB r then do
      let t ← readN (r.getD 0)
      if key < t.key then search key fuel t.left
      else if t.key < key then search key fuel t.right
      else pure (r.getD 0)
    else throw .keyNotFoundError

/-- Lines 412-427, `_left_rotate`.  The root test is
`isinstance(node.parent, LeafNode)`, characters for the sentinel exactly
(a `None` parent would fall into the comparison and dereference). -/
def _left_rotate (nodeI : Nat) : M Unit := do
  let node ← readN nodeI
  let tempI ← refIdx node.right
  let temp ← readN tempI
  writeN nodeI ({ · with right := temp.left })
  if isRB temp.left then writeN (temp.left.getD 0) ({ · with parent := some nodeI })
  writeN tempI ({ · with parent := node.parent })
  if node.parent = some 0 then modify ({ · with root := some tempI })
  else do
    let pI ← refIdx node.parent
    let p ← readN pI
    if p.left = some nodeI then writeN pI ({ · with left := some tempI })
    else writeN pI ({ · with right := some tempI })
  writeN tempI ({ · with left := some nodeI })
  writeN nodeI ({ · with parent := some tempI })

/-- Lines 429-444, `_right_rotate` (mirror). -/
def _right_rotate (nodeI : Nat) : M Unit := do
  let node ← readN nodeI
  let tempI ← refIdx node.left
  let temp ← readN tempI
  writeN nodeI ({ · with left := temp.right })
  if isRB temp.right then writeN (temp.right.getD 0) ({ · with parent := some nodeI })
  writeN tempI ({ · with parent := node.parent })
  if node.parent = some 0 then modify ({ · with root := some tempI })
  else do
    let pI ← refIdx node.parent
    let p ← readN pI
    if p.right = some nodeI then writeN pI ({ · with right := some tempI })
    else writeN pI ({ · with left := some tempI })
  writeN tempI ({ · with right := some nodeI })
  writeN nodeI ({ · with parent := some tempI })

/-- Lines 446-477, `_insert_fixup`: while the parent is Red, recolor when
the uncle is Red, otherwise one or two rotations; finally force the root
Black. -/
def _insert_fixup : Nat → Nat → M Unit
  | 0, _ => throw .outOfFuel
  | fuel + 1, fI => do
    let f ← readN fI
    let pC ← colorOf f.parent
    if pC = .red then do
      let pI ← refIdx f.parent
      let p ← readN pI
      let gp ← deref p.parent
      let gpI ← refIdx p.parent
      if gp.left = some pI then do
        let uncle := gp.right
        let uC ← colorOf uncle
        if uC = .red then do
          setColor (some pI) .black
          setColor uncle .black
          setColor (some gpI) .red
          _insert_fixup fuel gpI
        else do
          let fI2 ←
            if p.right = some fI then do
              _left_rotate pI
              pure pI
            else pure fI
          let f2 ← readN fI2
          let p2I ← refIdx f2.parent
          setColor (some p2I) .black
          let p2 ← readN p2I
          let g2I ← refIdx p2.parent
          setColor (some g2I) .red
          _right_rotate g2I
          _insert_fixup fuel fI2
      else do
        let uncle := gp.left
        let uC ← colorOf uncle
        if uC = .red then do
          setColor (some pI) .black
          setColor uncle .black
          setColor (some gpI) .red
          _insert_fixup fuel gpI
        else do
          let fI2 ←
            if p.left = some fI then do
              _right_rotate pI
              pure pI
            else pure fI
          let f2 ← readN fI2
          let p2I ← refIdx f2.parent
          setColor (some p2I) .black
          let p2 ← readN p2I
          let g2I ← refIdx p2.parent
          setColor (some g2I) .red
          _left_rotate g2I
          _insert_fixup fuel fI2
    else do
      let s ← get
      setColor s.root .black

/-- Lines 154-182, `insert`: make a Red node with sentinel children,
descend to find the parent (equal keys go right, no duplicate check), then
attach and fix up; an empty tree just makes the node the Black root. -/
def insert (fuel : Nat) (key : Nat) (data : String) : M Unit := do
  let nodeI := (← get).nodes.size
  modify fun st => { st with nodes := st.nodes.push ⟨key, data, some 0, some 0, some 0, .red⟩ }
  let parentR ← descend fuel (← get).root (some 0)
  if ¬ isRB parentR then do
    writeN nodeI ({ · with color := .black })
    modify ({ · with root := some nodeI })
  else do
    let pI := parentR.getD 0
    writeN nodeI ({ · with parent := some pI })
    let p ← readN pI
    if key < p.key then writeN pI ({ · with left := some nodeI })
    else writeN pI ({ · with right := some nodeI })
    _insert_fixup fuel nodeI
where
  descend : Nat → Option Nat → Option Nat → M (Option Nat)
    | 0, _, _ => throw .outOfFuel
    | fuel + 1, temp, parent =>
      if isRB temp then do
        let t ← readN (temp.getD 0)
        if key < t.key then descend fuel t.left temp
        else descend fuel t.right temp
      else pure parent

/-- Lines 231-248, `get_min`: start from the given node (or the root; an
empty tree raises `EmptyTreeError`), then follow left children while they
are `RBNode`s. -/
def get_min (fuel : Nat) (nodeO : Option Nat) : M Nat := do
  let start ← match nodeO with
    | some i => pure i
    | none => do
      let s ← get
      if isRB s.root then pure (s.root.getD 0)
      else throw .emptyTreeError
  go fuel start
where
  go : Nat → Nat → M Nat
    | 0, _ => throw .outOfFuel
    | fuel + 1, i => do
      let n ← readN i
      if isRB n.left then go fuel (n.left.getD 0)
      else pure i

/-- Lines 251-268, `get_max`: mirror of `get_min`. -/
def get_max (fuel : Nat) (nodeO : Option Nat) : M Nat := do
  let start ← match nodeO with
    | some i => pure i
    | none => do
      let s ← get
      if isRB s.root then pure (s.root.getD 0)
      else throw .emptyTreeError
  go fuel start
where
  go : Nat → Nat → M Nat
    | 0, _ => throw .outOfFuel
    | fuel + 1, i => do
      let n ← readN i
      if isRB n.right then go fuel (n.right.getD 0)
      else pure i

/-- Lines 537-546, `_transplant`: the root test is
`isinstance(deleting_node.parent, LeafNode)`; the final
`replacing_node.parent = deleting_node.parent` is unconditional (on the
sentinel it writes the shared instance). -/
def _transplant (dI : Nat) (rO : Option Nat) : M Unit := do
  let d ← readN dI
  if d.parent = some 0 then modify ({ · with root := rO })
  else do
    let pI ← refIdx d.parent
    let p ← readN pI
    if p.left = some dI then writeN pI ({ · with left := rO })
    else writeN pI ({ · with right := rO })
  writeN (← refIdx rO) ({ · with parent := d.parent })

/-- Lines 480-535, one iteration of the `while` loop of `_delete_fixup`,
returning `some next` when the loop continues with `fixing_node = next`
and `none` after the loop has exited and recolored the final fixing node
Black (line 535).  Two behaviours of the source are kept exactly: in
Case 1 of both arms the line `sibling.color == Color.Black` (487 and 516)
is a comparison, not an assignment, so the red sibling is NOT recolored
(source typo); and after the Case-3 rotation the `sibling` variable is
not re-read before Case 4 runs. -/
def _delete_fixup_step (fR : Option Nat) : M (Option (Option Nat)) := do
  let rt := (← get).root
  if fR ≠ rt then do
    let fC ← colorOf fR
    if fC = .black then do
      let fI ← refIdx fR
      let f ← readN fI
      let pI ← refIdx f.parent
      let p ← readN pI
      if p.left = fR then do
        let sib0 := p.right
        let sC ← colorOf sib0
        let sib1 ←
          if sC = .red then do
            -- source typo kept: `sibling.color == Color.Black` is a no-op
            setColor f.parent .red
            _left_rotate pI
            let f2 ← readN fI
            let p2 ← deref f2.parent
            pure p2.right
          else pure sib0
        let s ← deref sib1
        let slC ← colorOf s.left
        let srC ← colorOf s.right
        if slC = .black ∧ srC = .black then do
          setColor sib1 .red
          let f3 ← readN fI
          pure (some f3.parent)
        else do
          if srC = .black then do
            setColor s.left .black
            setColor sib1 .red
            _right_rotate (← refIdx sib1)
          let f4 ← readN fI
          let p4I ← refIdx f4.parent
          let p4 ← readN p4I
          setColor sib1 p4.color
          writeN p4I ({ · with color := .black })
          let s2 ← deref sib1
          setColor s2.right .black
          _left_rotate p4I
          let rt2 := (← get).root
          pure (some rt2)
      else do
        let sib0 := p.left
        let sC ← colorOf sib0
        let sib1 ←
          if sC = .red then do
            -- source typo kept: `sibling.color == Color.Black` is a no-op
            setColor f.parent .red
            _right_rotate pI
            let f2 ← readN fI
            let p2 ← deref f2.parent
            pure p2.left
          else pure sib0
        let s ← deref sib1
        let srC ← colorOf s.right
        let slC ← colorOf s.left
        if srC = .black ∧ slC = .black then do
          setColor sib1 .red
          let f3 ← readN fI
          pure (some f3.parent)
        else do
          if slC = .black then do
            setColor s.right .black
            setColor sib1 .red
            _left_rotate (← refIdx sib1)
          let f4 ← readN fI
          let p4I ← refIdx f4.parent
          let p4 ← readN p4I
          setColor sib1 p4.color
          writeN p4I ({ · with color := .black })
          let s2 ← deref sib1
          setColor s2.left .black
          _right_rotate p4I
          let rt2 := (← get).root
          pure (some rt2)
    else do
      setColor fR .black
      pure none
  else do
    setColor fR .black
    pure none

/-- Lines 479-535, `_delete_fixup`: the `while` loop as iteration of
`_delete_fixup_step`. -/
def _delete_fixup : Nat → Option Nat → M Unit
  | 0, _ => throw .outOfFuel
  | fuel + 1, fR => do
    let cont ← _delete_fixup_step fR
    match cont with
    | some fR2 => _delete_fixup fuel fR2
    | none => pure ()

/-- Lines 185-226 of `delete`, everything before the fix-up call: find
the node, remember its color; splice (one-or-no-child cases test the
sentinel), or replace by the in-order successor propagating the deleted
slot color.  Returns `original_color` and `temp`. -/
def delete_splice (fuel : Nat) (key : Nat) : M (Color × Option Nat) := do
  let s ← get
  let dI ← search key fuel s.root
  let d ← readN dI
  if d.left = some 0 then do
    _transplant dI d.right
    pure (d.color, d.right)
  else if d.right = some 0 then do
    _transplant dI d.left
    pure (d.color, d.left)
  else do
    let minI ← get_min fuel d.right
    let m ← readN minI
    let tempR := m.right
    if m.parent = some dI then
      writeN (← refIdx tempR) ({ · with parent := some minI })
    else do
      _transplant minI m.right
      writeN minI ({ · with right := d.right })
      let m2 ← readN minI
      writeN (← refIdx m2.right) ({ · with parent := some minI })
    _transplant dI (some minI)
    writeN minI ({ · with left := d.left })
    let m3 ← readN minI
    writeN (← refIdx m3.left) ({ · with parent := some minI })
    writeN minI ({ · with color := d.color })
    pure (m.color, tempR)

/-- Lines 185-228, `delete`: the splice above, then delete-fixup on `temp`
when the removed color was Black (lines 227-228). -/
def delete (fuel : Nat) (key : Nat) : M Unit := do
  let res ← delete_splice fuel key
  if res.1 = .black then _delete_fixup fuel res.2

/-- Run an embedded program from the empty tree. -/
def run (prog : M Unit) : Except PyErr State :=
  match (ExceptT.run prog).run initState with
  | (Except.ok _, s) => .ok s
  | (Except.error e, _) => .error e

/-- Colored parent-free tree shape, for stating the Red-Black invariants
of an arena state. -/
inductive CTree where
  | leaf : CTree
  | cnode (c : Color) (key : Nat) (l r : CTree) : CTree
deriving DecidableEq, Repr

/-- Reconstruct the colored shape below a reference (sentinel and `None`
both read back as `leaf`). -/
def toCTree (s : State) : Nat → Option Nat → CTree
  | 0, _ => .leaf
  | _ + 1, none => .leaf
  | _ + 1, some 0 => .leaf
  | fuel + 1, some i =>
    match s.nodes[i]? with
    | none => .leaf
    | some n => .cnode n.color n.key (toCTree s fuel n.left) (toCTree s fuel n.right)

/-- No Red node has a Red child. -/
def noRedRed : CTree → Bool
  | .leaf => true
  | .cnode c _ l r =>
    (c = .black ∨ (topColor l = .black ∧ topColor r = .black) : Bool)
    && noRedRed l && noRedRed r
where
  topColor : CTree → Color
    | .leaf => .black
    | .cnode c _ _ _ => c

/-- Number of Black nodes on every path to a leaf, `none` when two paths
disagree. -/
def blackHeight : CTree → Option Nat
  | .leaf => some 1
  | .cnode c _ l r => do
    let a ← blackHeight l
    let b ← blackHeight r
    if a = b then pure (a + (if c = .black then 1 else 0)) else none

/-- The four Red-Black invariants of the claim, computed on an arena
state: Black root, Black sentinel, no Red-Red edge, consistent Black
height. -/
def invariantsOk (s : State) : Bool :=
  let t := toCTree s s.nodes.size s.root
  (match s.root with
   | some 0 => true
   | some i => (s.nodes[i]?.map (fun n => n.color == Color.black)).getD false
   | none => false)
  && ((s.nodes[0]?.map (fun n => n.color == Color.black)).getD false)
  && noRedRed t
  && (blackHeight t).isSome

end RB

/-
Embedding of the `RightThreadedBinaryTree` class of
`pyforest/binary_trees/threaded_binary_tree.py` (lines 44-318), again as
an arena of nodes.  `delete` calls two methods of the abstract base
class `binary_tree.BinaryTree` explicitly: `get_predecessor` and
`get_min` (lines 138-239 of `binary_tree.py`), embedded here with a
`bt_` head.  `get_min` walks plain `left` pointers (never threads in this
variant, and the class has no override); `get_predecessor` calls
`self.get_max`, which dispatches to the thread-aware
`RightThreadedBinaryTree.get_max` override.
-/

namespace RT

/-- The `SingleThreadNode` dataclass: key, data, left, right, parent,
isThread. -/
structure STNode where
  key : Nat
  data : String
  left : Option Nat
  right : Option Nat
  parent : Option Nat
  isThread : Bool
deriving DecidableEq, Repr

/-- The `RightThreadedBinaryTree` object state. -/
structure State where
  nodes : Array STNode
  root : Option Nat
deriving DecidableEq, Repr

/-- A tree constructed with no seed pair. -/
def initState : State := ⟨#[], none⟩

/-- Monad of the embedded methods. -/
abbrev M := ExceptT PyErr (StateM State)

/-- Read the node record behind an index. -/
def readN (i : Nat) : M STNode := do
  match (← get).nodes[i]? with
  | some n => pure n
  | none => throw .attributeError

/-- Update the node record behind an index. -/
def writeN (i : Nat) (f : STNode → STNode) : M Unit := do
  let s ← get
  match s.nodes[i]? with
  | some n => set { s with nodes := s.nodes.set! i (f n) }
  | none => throw .attributeError

/-- Dereference a reference (AttributeError on Python `None`). -/
def deref (r : Option Nat) : M STNode := do
  match r with
  | some i => readN i
  | none => throw .attributeError

/-- Index behind a reference. -/
def refIdx (r : Option Nat) : M Nat := do
  match r with
  | some i => pure i
  | none => throw .attributeError

/-- Lines 129-163, `insert`: descend; a left-empty slot links plainly and
threads the new node to its parent; a right slot splices the new node
between the current node and its old right reference, inheriting the old
thread flag. -/
def insert (fuel : Nat) (key : Nat) (data : String) : M Unit := do
  let nodeI := (← get).nodes.size
  modify fun st => { st with nodes := st.nodes.push ⟨key, data, none, none, none, false⟩ }
  let s ← get
  match s.root with
  | none => modify ({ · with root := some nodeI })
  | some r => go fuel r nodeI
where
  go : Nat → Nat → Nat → M Unit
    | 0, _, _ => throw .outOfFuel
    | fuel + 1, tempI, nodeI => do
      let temp ← readN tempI
      if key < temp.key then
        match temp.left with
        | some l => go fuel l nodeI
        | none => do
          writeN tempI ({ · with left := some nodeI })
          writeN nodeI (fun n => { n with right := some tempI, isThread := true, parent := some tempI })
      else if temp.key < key then
        if temp.isThread = false ∧ temp.right ≠ none then
          go fuel (temp.right.getD 0) nodeI
        else do
          writeN nodeI (fun n => { n with right := temp.right, isThread := temp.isThread, parent := some tempI })
          writeN tempI (fun n => { n with right := some nodeI, isThread := false })
      else throw .duplicateKeyError

/-- Lines 221-235, `search`: descend, refusing to cross a right thread;
raises `KeyNotFoundError` on falling out or on hitting a thread. -/
def search (key : Nat) : Nat → Option Nat → M Nat
  | 0, _ => throw .outOfFuel
  | fuel + 1, cur =>
    match cur with
    | none => throw .keyNotFoundError
    | some i => do
      let n ← readN i
      if key = n.key then pure i
      else if key < n.key then search key fuel n.left
      else
        if n.isThread = false then search key fuel n.right
        else throw .keyNotFoundError

/-- Lines 286-293, `_get_leftmost`: follow real left pointers. -/
def _get_leftmost : Nat → Option Nat → M (Option Nat)
  | 0, _ => throw .outOfFuel
  | _ + 1, none => pure none
  | fuel + 1, some i => do
    let n ← readN i
    match n.left with
    | none => pure (some i)
    | some l => _get_leftmost fuel (some l)

/-- Lines 279-284 of `threaded_binary_tree.py`, the
`RightThreadedBinaryTree.get_max` override: follow `right` pointers while
the current node is not threaded and has a right reference. -/
def get_max : Nat → Nat → M Nat
  | 0, _ => throw .outOfFuel
  | fuel + 1, i => do
    let n ← readN i
    if n.isThread = false ∧ n.right ≠ none then get_max fuel (n.right.getD 0)
    else pure i

/-- Lines 138-168 of `binary_tree.py`, `BinaryTree.get_min` with an
explicit node (the right-threaded class has no override): follow `left`
pointers while non-null. -/
def bt_get_min : Nat → Nat → M Nat
  | 0, _ => throw .outOfFuel
  | fuel + 1, i => do
    let n ← readN i
    match n.left with
    | none => pure i
    | some l => bt_get_min fuel l

/-- Lines 224-239 of `binary_tree.py`, `BinaryTree.get_predecessor`: the
rightmost node of the left subtree, or the parent when there is no left
child.  Its call `self.get_max(node=node.left)` dispatches on the object
class, so on a right-threaded tree it runs the thread-aware `get_max`
override above. -/
def bt_get_predecessor (fuel : Nat) (nodeI : Nat) : M (Option Nat) := do
  let n ← readN nodeI
  match n.left with
  | some l => do pure (some (← get_max fuel l))
  | none => pure n.parent

/-- Lines 295-318, `_transplant`.  Kept faithfully: lines 306 and 312 are
the self-assignment `replacing_node.right = replacing_node.right`, a
no-op; the right-child case with a null replacement rewires the parent to
the thread target of the deleted node and marks it threaded (lines
313-315); the left-child case with a null replacement just nulls the
slot. -/
def _transplant (dI : Nat) (rO : Option Nat) : M Unit := do
  let d ← readN dI
  match d.parent with
  | none => do
    modify ({ · with root := rO })
    match rO with
    | some rI => writeN rI ({ · with isThread := false })
    | none => pure ()
  | some pI => do
    let p ← readN pI
    if p.left = some dI then do
      writeN pI ({ · with left := rO })
      -- lines 303-306: when both nodes are threads the source performs the
      -- self-assignment `replacing_node.right = replacing_node.right`
      pure ()
    else do
      writeN pI ({ · with right := rO })
      match rO with
      | some _ =>
        -- lines 309-312: same self-assignment no-op
        pure ()
      | none => do
        writeN pI (fun n => { n with right := d.right, isThread := true })
  match rO with
  | some rI => writeN rI ({ · with parent := d.parent })
  | none => pure ()

/-- Lines 166-219, `delete`: four cases keyed on the left child and the
thread flag; the two-children case replaces the node by the in-order
successor found with the thread-blind base-class `get_min` and repairs
the predecessor thread found with the thread-blind base-class
`get_predecessor`. -/
def delete (fuel : Nat) (key : Nat) : M Unit := do
  let s ← get
  match s.root with
  | none => pure ()
  | some r => do
    let dI ← search key fuel (some r)
    let d ← readN dI
    if d.left = none ∧ d.isThread then
      _transplant dI none
    else if d.left = none ∧ d.isThread = false then
      _transplant dI d.right
    else if d.left ≠ none ∧ d.isThread then do
      let predO ← bt_get_predecessor fuel dI
      match predO with
      | some pI => writeN pI ({ · with right := d.right })
      | none => pure ()
      _transplant dI d.left
    else do
      let predO ← bt_get_predecessor fuel dI
      let minI ← bt_get_min fuel (← refIdx d.right)
      let m ← readN minI
      if m.parent ≠ some dI then do
        if m.isThread then _transplant minI none
        else _transplant minI m.right
        writeN minI ({ · with right := d.right })
        let m2 ← readN minI
        writeN (← refIdx m2.right) ({ · with parent := some minI })
        writeN minI ({ · with isThread := false })
      _transplant dI (some minI)
      writeN minI ({ · with left := d.left })
      let m3 ← readN minI
      writeN (← refIdx m3.left) ({ · with parent := some minI })
      match predO with
      | some pI => do
        let p ← readN pI
        if p.isThread then writeN pI ({ · with right := some minI })
      | none => pure ()

/-- Lines 237-252, the `inorder_traverse` generator: start at the leftmost
node, yield, then follow the thread (when `isThread`) or jump to the
leftmost node of the right subtree.  The fuel bounds how many pairs the
consumer takes from the generator; what was yielded so far is returned
when it runs out, so a cyclic thread structure shows up as a repeating
prefix. -/
def inorder_traverse (fuel : Nat) : M OutputType := do
  let s ← get
  let start ← _get_leftmost (s.nodes.size + 1) s.root
  go fuel start []
where
  go : Nat → Option Nat → OutputType → M OutputType
    | 0, _, acc => pure acc
    | fuel + 1, cur, acc =>
      match cur with
      | none => pure acc
      | some i => do
        let n ← readN i
        let acc2 := acc ++ [(n.key, n.data)]
        if n.isThread then go fuel n.right acc2
        else do
          let s ← get
          let nxt ← _get_leftmost (s.nodes.size + 1) n.right
          go fuel nxt acc2

/-- Run an embedded program from the empty tree. -/
def run (prog : M Unit) : Except PyErr State :=
  match (ExceptT.run prog).run initState with
  | (Except.ok _, s) => .ok s
  | (Except.error e, _) => .error e

/-- Run an embedded program and then consume up to `fuel` pairs of the
in-order generator. -/
def runInorder (fuel : Nat) (prog : M Unit) : Except PyErr OutputType :=
  match (ExceptT.run (do prog; inorder_traverse fuel)).run initState with
  | (Except.ok out, _) => .ok out
  | (Except.error e, _) => .error e

end RT

/-
Concrete operation sequences.  A Python scenario is a sequence of method
calls on one tree object; an uncaught exception aborts the rest.  The
`step` helpers below express exactly that over the arena states, one
method call at a time.
-/

/-- One method call of an AVL scenario: run `op` unless a previous call
already raised. -/
def AVL.step (op : AVL.M Unit) (e : Except PyErr AVL.State) : Except PyErr AVL.State :=
  match e with
  | .ok s =>
    match (ExceptT.run op).run s with
    | (.ok _, s2) => .ok s2
    | (.error err, _) => .error err
  | .error err => .error err

/-- One method call of a Red-Black scenario. -/
def RB.step (op : RB.M Unit) (e : Except PyErr RB.State) : Except PyErr RB.State :=
  match e with
  | .ok s =>
    match (ExceptT.run op).run s with
    | (.ok _, s2) => .ok s2
    | (.error err, _) => .error err
  | .error err => .error err

/-- One method call of a right-threaded scenario. -/
def RT.step (op : RT.M Unit) (e : Except PyErr RT.State) : Except PyErr RT.State :=
  match e with
  | .ok s =>
    match (ExceptT.run op).run s with
    | (.ok _, s2) => .ok s2
    | (.error err, _) => .error err
  | .error err => .error err

/-- Consume up to `fuel` pairs of the threaded in-order generator on the
final state of a scenario. -/
def RT.inorderOut (fuel : Nat) (e : Except PyErr RT.State) : Except PyErr OutputType :=
  match e with
  | .ok s =>
    match (ExceptT.run (RT.inorder_traverse fuel)).run s with
    | (.ok out, _) => .ok out
    | (.error err, _) => .error err
  | .error err => .error err

/-
Concrete scenarios used by the claims.
-/

/-- The shared 11-key scenario of the spec, the docstrings and the test
suite: keys in insertion order, each with data `str(key)`. -/
def basicPairs : List (Nat × String) :=
  [(23, "23"), (4, "4"), (30, "30"), (11, "11"), (7, "7"), (34, "34"),
   (20, "20"), (24, "24"), (22, "22"), (15, "15"), (1, "1")]

/-- The plain BST built from the 11-key scenario. -/
def bstScenario : Except PyErr BST.T := BST.insertAll BST.emptyTree basicPairs

/-- The same tree after `delete(15)`, `delete(22)`, `delete(7)`,
`delete(20)`. -/
def bstScenarioDel : Except PyErr BST.T := do
  let t ← bstScenario
  let a ← BST.delete t 15
  let b ← BST.delete a 22
  let c ← BST.delete b 7
  BST.delete c 20

/-- A BST holding the single pair (1, "1"). -/
def oneNodeBST : Except PyErr BST.T := BST.insertAll BST.emptyTree [(1, "1")]

/-- Deleting the root key of the one-node tree. -/
def oneNodeDeleteRoot : Except PyErr BST.T := do
  let t ← oneNodeBST
  BST.delete t 1

/-- Five inserts giving the shape 50(10(5, 20(-, 30)), -): key 10 has two
children and its in-order successor (20) has a right child (30). -/
def bstFive : Except PyErr BST.T :=
  BST.insertAll BST.emptyTree [(50, "50"), (10, "10"), (5, "5"), (20, "20"), (30, "30")]

/-- The same tree after `delete(10)` (a successful two-children
deletion). -/
def bstFiveDel : Except PyErr BST.T := do
  let t ← bstFive
  BST.delete t 10

/-- Searching key 30 (inserted, never deleted) after the deletion of 10. -/
def bstFiveSearch30 : Except PyErr (Option String) := do
  let t ← bstFiveDel
  BST.search t 30

/-- `RBTree.get_min()` with no subtree argument on an empty tree. -/
def rbGetMinEmpty : Except PyErr Nat :=
  ((ExceptT.run (RB.get_min 64 none)).run RB.initState).1

/-- `RBTree.get_max()` with no subtree argument on an empty tree. -/
def rbGetMaxEmpty : Except PyErr Nat :=
  ((ExceptT.run (RB.get_max 64 none)).run RB.initState).1

/-
AVL scenario for the balance claim: insert 10, 5, 20, 3, 15, 25, 13, then
delete 3 (a leaf).  Every step is proved against the explicit arena state
it produces.
-/

def avlC2s1 : Except PyErr AVL.State := AVL.step (AVL.insert 64 10 "10") (.ok AVL.initState)

def avlC2s2 : Except PyErr AVL.State := AVL.step (AVL.insert 64 5 "5") avlC2s1

def avlC2s3 : Except PyErr AVL.State := AVL.step (AVL.insert 64 20 "20") avlC2s2

def avlC2s4 : Except PyErr AVL.State := AVL.step (AVL.insert 64 3 "3") avlC2s3

def avlC2s5 : Except PyErr AVL.State := AVL.step (AVL.insert 64 15 "15") avlC2s4

def avlC2s6 : Except PyErr AVL.State := AVL.step (AVL.insert 64 25 "25") avlC2s5

def avlC2s7 : Except PyErr AVL.State := AVL.step (AVL.insert 64 13 "13") avlC2s6

def avlC2s8 : Except PyErr AVL.State := AVL.step (AVL.delete 64 3) avlC2s7

/-- The arena state after the whole AVL scenario: node 3 is detached and
no rebalancing ran, leaving the root with a null left child over a
two-level right subtree. -/
def avlC2final : AVL.State :=
  ⟨#[⟨10, "10", some 1, some 2, none, 3⟩,
     ⟨5, "5", none, none, some 0, 1⟩,
     ⟨20, "20", some 4, some 5, some 0, 2⟩,
     ⟨3, "3", none, none, some 1, 0⟩,
     ⟨15, "15", some 6, none, some 2, 1⟩,
     ⟨25, "25", none, none, some 2, 0⟩,
     ⟨13, "13", none, none, some 4, 0⟩], some 0⟩

/-
Red-Black scenario for the invariants claim: insert 10, 5, 20, 15, 25,
30, then delete 5.  The deletion of the Black leaf 5 enters delete-fixup
with a Red sibling (Case 1), whose recoloring line is a no-op comparison
in the source; after the loop the root is left Red.  Each operation, and
each iteration of the fix-up loop, is proved against the explicit arena
state it produces.
-/

def rbC3s1 : Except PyErr RB.State := RB.step (RB.insert 64 10 "10") (.ok RB.initState)

def rbC3s2 : Except PyErr RB.State := RB.step (RB.insert 64 5 "5") rbC3s1

def rbC3s3 : Except PyErr RB.State := RB.step (RB.insert 64 20 "20") rbC3s2

def rbC3s4 : Except PyErr RB.State := RB.step (RB.insert 64 15 "15") rbC3s3

def rbC3s5 : Except PyErr RB.State := RB.step (RB.insert 64 25 "25") rbC3s4

def rbC3s6 : Except PyErr RB.State := RB.step (RB.insert 64 30 "30") rbC3s5

def rbC3s7 : Except PyErr RB.State := RB.step (RB.delete 64 5) rbC3s6

/-- The arena state after the six inserts: a valid Red-Black tree
10B(5B, 20R(15B, 25B(NIL, 30R))). -/
def rbC3s6state : RB.State :=
  ⟨#[⟨0, "", none, none, none, .black⟩,
     ⟨10, "10", some 2, some 3, some 0, .black⟩,
     ⟨5, "5", some 0, some 0, some 1, .black⟩,
     ⟨20, "20", some 4, some 5, some 1, .red⟩,
     ⟨15, "15", some 0, some 0, some 3, .black⟩,
     ⟨25, "25", some 0, some 6, some 3, .black⟩,
     ⟨30, "30", some 0, some 0, some 5, .red⟩], some 1⟩

/-- The state right after the splice of node 5 (before delete-fixup):
the sentinel took the place of 5 under the root 10. -/
def rbC3mid : RB.State :=
  ⟨#[⟨0, "", none, none, some 1, .black⟩,
     ⟨10, "10", some 0, some 3, some 0, .black⟩,
     ⟨5, "5", some 0, some 0, some 1, .black⟩,
     ⟨20, "20", some 4, some 5, some 1, .red⟩,
     ⟨15, "15", some 0, some 0, some 3, .black⟩,
     ⟨25, "25", some 0, some 6, some 3, .black⟩,
     ⟨30, "30", some 0, some 0, some 5, .red⟩], some 1⟩

/-- The state after the first fix-up iteration (Case 1 with its no-op
recoloring, then Case 2): node 20 became the root and stayed Red. -/
def rbC3fix1 : RB.State :=
  ⟨#[⟨0, "", none, none, some 1, .black⟩,
     ⟨10, "10", some 0, some 4, some 3, .red⟩,
     ⟨5, "5", some 0, some 0, some 1, .black⟩,
     ⟨20, "20", some 1, some 5, some 0, .red⟩,
     ⟨15, "15", some 0, some 0, some 1, .red⟩,
     ⟨25, "25", some 0, some 6, some 3, .black⟩,
     ⟨30, "30", some 0, some 0, some 5, .red⟩], some 3⟩

/-- The arena state after the whole Red-Black scenario: the root is the
node with key 20 and it is RED. -/
def rbC3final : RB.State :=
  ⟨#[⟨0, "", none, none, some 1, .black⟩,
     ⟨10, "10", some 0, some 4, some 3, .black⟩,
     ⟨5, "5", some 0, some 0, some 1, .black⟩,
     ⟨20, "20", some 1, some 5, some 0, .red⟩,
     ⟨15, "15", some 0, some 0, some 1, .red⟩,
     ⟨25, "25", some 0, some 6, some 3, .black⟩,
     ⟨30, "30", some 0, some 0, some 5, .red⟩], some 3⟩

/-
Right-threaded scenario for the traversal-equivalence claim: insert 50,
10, 5, 20, 30, then delete 10 — the same key/data sequence as `bstFive`
followed by `delete(10)` on the plain BST.  The threaded delete replaces
node 10 by its successor 20 and repairs the predecessor thread of node 5,
so the stackless in-order traversal correctly yields (5, 20, 30, 50) —
while the plain BST deletion discards the subtree holding 30.
-/

def rtC6s1 : Except PyErr RT.State := RT.step (RT.insert 64 50 "50") (.ok RT.initState)

def rtC6s2 : Except PyErr RT.State := RT.step (RT.insert 64 10 "10") rtC6s1

def rtC6s3 : Except PyErr RT.State := RT.step (RT.insert 64 5 "5") rtC6s2

def rtC6s4 : Except PyErr RT.State := RT.step (RT.insert 64 20 "20") rtC6s3

def rtC6s5 : Except PyErr RT.State := RT.step (RT.insert 64 30 "30") rtC6s4

def rtC6s6 : Except PyErr RT.State := RT.step (RT.delete 64 10) rtC6s5

/-- The arena state after the threaded scenario: node 3 (key 20) took
the place of node 1 (key 10), and the thread of node 2 (key 5) was
repaired to point at node 3. -/
def rtC6final : RT.State :=
  ⟨#[⟨50, "50", some 3, none, none, false⟩,
     ⟨10, "10", some 2, some 3, some 0, false⟩,
     ⟨5, "5", none, some 3, some 3, true⟩,
     ⟨20, "20", some 2, some 4, some 0, false⟩,
     ⟨30, "30", none, some 0, some 3, true⟩], some 0⟩

/-
The claims.
-/

theorem avlC2s1_eq : avlC2s1 = .ok ⟨#[⟨10, "10", none, none, none, 0⟩], some 0⟩ := by rfl

theorem avlC2s2_eq : avlC2s2 =
    .ok ⟨#[⟨10, "10", some 1, none, none, 1⟩,
           ⟨5, "5", none, none, some 0, 0⟩], some 0⟩ := by
  show AVL.step (AVL.insert 64 5 "5") avlC2s1 = _
  rw [avlC2s1_eq]; rfl

theorem avlC2s3_eq : avlC2s3 =
    .ok ⟨#[⟨10, "10", some 1, some 2, none, 1⟩,
           ⟨5, "5", none, none, some 0, 0⟩,
           ⟨20, "20", none, none, some 0, 0⟩], some 0⟩ := by
  show AVL.step (AVL.insert 64 20 "20") avlC2s2 = _
  rw [avlC2s2_eq]; rfl

theorem avlC2s4_eq : avlC2s4 =
    .ok ⟨#[⟨10, "10", some 1, some 2, none, 2⟩,
           ⟨5, "5", some 3, none, some 0, 1⟩,
           ⟨20, "20", none, none, some 0, 0⟩,
           ⟨3, "3", none, none, some 1, 0⟩], some 0⟩ := by
  show AVL.step (AVL.insert 64 3 "3") avlC2s3 = _
  rw [avlC2s3_eq]; rfl

theorem avlC2s5_eq : avlC2s5 =
    .ok ⟨#[⟨10, "10", some 1, some 2, none, 2⟩,
           ⟨5, "5", some 3, none, some 0, 1⟩,
           ⟨20, "20", some 4, none, some 0, 1⟩,
           ⟨3, "3", none, none, some 1, 0⟩,
           ⟨15, "15", none, none, some 2, 0⟩], some 0⟩ := by
  show AVL.step (AVL.insert 64 15 "15") avlC2s4 = _
  rw [avlC2s4_eq]; rfl

theorem avlC2s6_eq : avlC2s6 =
    .ok ⟨#[⟨10, "10", some 1, some 2, none, 2⟩,
           ⟨5, "5", some 3, none, some 0, 1⟩,
           ⟨20, "20", some 4, some 5, some 0, 1⟩,
           ⟨3, "3", none, none, some 1, 0⟩,
           ⟨15, "15", none, none, some 2, 0⟩,
           ⟨25, "25", none, none, some 2, 0⟩], some 0⟩ := by
  show AVL.step (AVL.insert 64 25 "25") avlC2s5 = _
  rw [avlC2s5_eq]; rfl

theorem avlC2s7_eq : avlC2s7 =
    .ok ⟨#[⟨10, "10", some 1, some 2, none, 3⟩,
           ⟨5, "5", some 3, none, some 0, 1⟩,
           ⟨20, "20", some 4, some 5, some 0, 2⟩,
           ⟨3, "3", none, none, some 1, 0⟩,
           ⟨15, "15", some 6, none, some 2, 1⟩,
           ⟨25, "25", none, none, some 2, 0⟩,
           ⟨13, "13", none, none, some 4, 0⟩], some 0⟩ := by
  show AVL.step (AVL.insert 64 13 "13") avlC2s6 = _
  rw [avlC2s6_eq]; rfl

theorem avlC2s8_eq : avlC2s8 = .ok avlC2final := by
  show AVL.step (AVL.delete 64 3) avlC2s7 = _
  rw [avlC2s7_eq]; rfl


/-- Unfolding one bind of an embedded method sequence at a known
intermediate result: when the first computation ends normally with value
`a` and state `s2`, the sequence continues as `f a` from `s2`. -/
theorem runStep_bind {σ α β : Type} (m : ExceptT PyErr (StateM σ) α)
    (f : α → ExceptT PyErr (StateM σ) β) (s s2 : σ) (a : α)
    (h : (ExceptT.run m).run s = (Except.ok a, s2)) :
    (ExceptT.run (m >>= f)).run s = (ExceptT.run (f a)).run s2 := by
  rw [ExceptT.run_bind, StateT.run_bind, h]
  rfl

theorem rbC3s1_eq : rbC3s1 =
    .ok ⟨#[⟨0, "", none, none, none, .black⟩,
           ⟨10, "10", some 0, some 0, some 0, .black⟩], some 1⟩ := by rfl

theorem rbC3s2_eq : rbC3s2 =
    .ok ⟨#[⟨0, "", none, none, none, .black⟩,
           ⟨10, "10", some 2, some 0, some 0, .black⟩,
           ⟨5, "5", some 0, some 0, some 1, .red⟩], some 1⟩ := by
  show RB.step (RB.insert 64 5 "5") rbC3s1 = _
  rw [rbC3s1_eq]; rfl

theorem rbC3s3_eq : rbC3s3 =
    .ok ⟨#[⟨0, "", none, none, none, .black⟩,
           ⟨10, "10", some 2, some 3, some 0, .black⟩,
           ⟨5, "5", some 0, some 0, some 1, .red⟩,
           ⟨20, "20", some 0, some 0, some 1, .red⟩], some 1⟩ := by
  show RB.step (RB.insert 64 20 "20") rbC3s2 = _
  rw [rbC3s2_eq]; rfl

theorem rbC3s4_eq : rbC3s4 =
    .ok ⟨#[⟨0, "", none, none, none, .black⟩,
           ⟨10, "10", some 2, some 3, some 0, .black⟩,
           ⟨5, "5", some 0, some 0, some 1, .black⟩,
           ⟨20, "20", some 4, some 0, some 1, .black⟩,
           ⟨15, "15", some 0, some 0, some 3, .red⟩], some 1⟩ := by
  show RB.step (RB.insert 64 15 "15") rbC3s3 = _
  rw [rbC3s3_eq]; rfl

theorem rbC3s5_eq : rbC3s5 =
    .ok ⟨#[⟨0, "", none, none, none, .black⟩,
           ⟨10, "10", some 2, some 3, some 0, .black⟩,
           ⟨5, "5", some 0, some 0, some 1, .black⟩,
           ⟨20, "20", some 4, some 5, some 1, .black⟩,
           ⟨15, "15", some 0, some 0, some 3, .red⟩,
           ⟨25, "25", some 0, some 0, some 3, .red⟩], some 1⟩ := by
  show RB.step (RB.insert 64 25 "25") rbC3s4 = _
  rw [rbC3s4_eq]; rfl

theorem rbC3s6_eq : rbC3s6 = .ok rbC3s6state := by
  show RB.step (RB.insert 64 30 "30") rbC3s5 = _
  rw [rbC3s5_eq]; rfl

theorem rbC3splice_eq :
    (ExceptT.run (RB.delete_splice 64 5)).run rbC3s6state =
    (Except.ok (RB.Color.black, some 0), rbC3mid) := by rfl

theorem rbC3fixstep1 :
    (ExceptT.run (RB._delete_fixup_step (some 0))).run rbC3mid =
    (Except.ok (some (some 1)), rbC3fix1) := by rfl

theorem rbC3fixstep2 :
    (ExceptT.run (RB._delete_fixup_step (some 1))).run rbC3fix1 =
    (Except.ok none, rbC3final) := by rfl

/-- Definitional unfolding of the `delete` body into its two stages. -/
theorem RB.delete_eq (fuel key : Nat) :
    RB.delete fuel key =
    (RB.delete_splice fuel key >>= fun res =>
      if res.1 = .black then RB._delete_fixup fuel res.2 else pure ()) := rfl

/-- Definitional unfolding of one iteration of the fix-up loop. -/
theorem RB.fixup_succ (fuel : Nat) (fR : Option Nat) :
    RB._delete_fixup (fuel + 1) fR =
    (RB._delete_fixup_step fR >>= fun cont =>
      match cont with
      | some fR2 => RB._delete_fixup fuel fR2
      | none => pure ()) := rfl

/-- Running `delete(5)` on the six-insert tree: the splice, then two
fix-up iterations, ending in `rbC3final`. -/
theorem rbC3delete_run :
    (ExceptT.run (RB.delete 64 5)).run rbC3s6state = (Except.ok (), rbC3final) := by
  rw [RB.delete_eq]
  refine Eq.trans (runStep_bind _ _ _ _ _ rbC3splice_eq) ?_
  show (ExceptT.run (RB._delete_fixup 64 (some 0))).run rbC3mid = _
  rw [show (64 : Nat) = 63 + 1 from rfl, RB.fixup_succ]
  refine Eq.trans (runStep_bind _ _ _ _ _ rbC3fixstep1) ?_
  show (ExceptT.run (RB._delete_fixup 63 (some 1))).run rbC3fix1 = _
  rw [show (63 : Nat) = 62 + 1 from rfl, RB.fixup_succ]
  refine Eq.trans (runStep_bind _ _ _ _ _ rbC3fixstep2) ?_
  rfl

theorem rbC3s7_eq : rbC3s7 = .ok rbC3final := by
  show RB.step (RB.delete 64 5) rbC3s6 = _
  rw [rbC3s6_eq]
  rw [show RB.step (RB.delete 64 5) (.ok rbC3s6state) =
      (match (ExceptT.run (RB.delete 64 5)).run rbC3s6state with
       | (Except.ok _, s2) => Except.ok s2
       | (Except.error e, _) => Except.error e) from rfl]
  rw [rbC3delete_run]

theorem rtC6s1_eq : rtC6s1 =
    .ok ⟨#[⟨50, "50", none, none, none, false⟩], some 0⟩ := by rfl

theorem rtC6s2_eq : rtC6s2 =
    .ok ⟨#[⟨50, "50", some 1, none, none, false⟩,
           ⟨10, "10", none, some 0, some 0, true⟩], some 0⟩ := by
  show RT.step (RT.insert 64 10 "10") rtC6s1 = _
  rw [rtC6s1_eq]; rfl

theorem rtC6s3_eq : rtC6s3 =
    .ok ⟨#[⟨50, "50", some 1, none, none, false⟩,
           ⟨10, "10", some 2, some 0, some 0, true⟩,
           ⟨5, "5", none, some 1, some 1, true⟩], some 0⟩ := by
  show RT.step (RT.insert 64 5 "5") rtC6s2 = _
  rw [rtC6s2_eq]; rfl

theorem rtC6s4_eq : rtC6s4 =
    .ok ⟨#[⟨50, "50", some 1, none, none, false⟩,
           ⟨10, "10", some 2, some 3, some 0, false⟩,
           ⟨5, "5", none, some 1, some 1, true⟩,
           ⟨20, "20", none, some 0, some 1, true⟩], some 0⟩ := by
  show RT.step (RT.insert 64 20 "20") rtC6s3 = _
  rw [rtC6s3_eq]; rfl

theorem rtC6s5_eq : rtC6s5 =
    .ok ⟨#[⟨50, "50", some 1, none, none, false⟩,
           ⟨10, "10", some 2, some 3, some 0, false⟩,
           ⟨5, "5", none, some 1, some 1, true⟩,
           ⟨20, "20", none, some 4, some 1, false⟩,
           ⟨30, "30", none, some 0, some 3, true⟩], some 0⟩ := by
  show RT.step (RT.insert 64 30 "30") rtC6s4 = _
  rw [rtC6s4_eq]; rfl

theorem rtC6s6_eq : rtC6s6 = .ok rtC6final := by
  show RT.step (RT.delete 64 10) rtC6s5 = _
  rw [rtC6s5_eq]; rfl

/-- The threaded in-order generator after the scenario yields the
correct sequence (5, 20, 30, 50). -/
theorem rtC6inorder_eq :
    RT.inorderOut 8 rtC6s6 =
    .ok [(5, "5"), (20, "20"), (30, "30"), (50, "50")] := by
  show RT.inorderOut 8 rtC6s6 = _
  rw [show rtC6s6 = .ok rtC6final from rtC6s6_eq]
  rfl

/-- C1.  The claim states that in the two-children case `delete(key)`
transplants the in-order successor and re-parents its original right
subtree, so the in-order traversal afterwards equals the one before with
just the (key, data) entry removed.  The code instead copies the
successor key/data into the deleted slot and then nulls the parent slot
of the successor, discarding the successor right subtree wholesale: after
inserting (50, 10, 5, 20, 30) and deleting 10, the in-order traversal is
[(5, 20, 50)], not the claimed [(5, 20, 30, 50)] — the never-deleted pair
(30, "30") disappeared. -/
theorem C1_bst_delete_two_children_loses_successor_subtree :
    bstFive.map (fun t => traversal.inorder_rec t.root) =
      .ok [(5, "5"), (10, "10"), (20, "20"), (30, "30"), (50, "50")] ∧
    bstFiveDel.map (fun t => traversal.inorder_rec t.root) =
      .ok [(5, "5"), (20, "20"), (50, "50")] ∧
    ([(5, "5"), (20, "20"), (50, "50")] : OutputType) ≠
      [(5, "5"), (20, "20"), (30, "30"), (50, "50")] :=
  ⟨rfl, rfl, by decide⟩

/-- C2.  The claim states every node of an AVL tree satisfies
|height(left) - height(right)| <= 1 after each completed insert or
delete.  `AVLTree.delete` runs its fix-up only when the spliced-in child
exists, so deleting a leaf never rebalances: after the successful inserts
10, 5, 20, 3, 15, 25, 13 (no rotations, all balance factors within 1) and
the successful `delete(3)`, the root (key 10) has a null left child and a
right subtree of height 2, so its balance factor is -2. -/
theorem C2_avl_delete_leaves_unbalanced_node :
    avlC2s8 = .ok avlC2final ∧
    AVL.toBTree avlC2final 64 avlC2final.root =
      .node 10 "10" (.node 5 "5" .nil .nil)
        (.node 20 "20" (.node 15 "15" (.node 13 "13" .nil .nil) .nil)
          (.node 25 "25" .nil .nil)) ∧
    balancedEverywhere (AVL.toBTree avlC2final 64 avlC2final.root) = false ∧
    (BST._height (.node 20 "20" (.node 15 "15" (.node 13 "13" .nil .nil) .nil)
        (.node 25 "25" .nil .nil)) : Int) - (BST._height BTree.nil : Int) = 2 := by
  refine ⟨?_, by rfl, by rfl, by rfl⟩
  show AVL.step (AVL.delete 64 3) avlC2s7 = _
  rw [avlC2s7_eq]; rfl

/-- C3.  The claim states all four Red-Black invariants hold after every
successful insert and delete.  After inserting 10, 5, 20, 15, 25, 30
(which yields a valid Red-Black tree) and deleting 5, the fix-up runs
its red-sibling Case 1 whose recolor line is a no-op comparison
(`sibling.color == Color.Black`, line 487), and the final tree has a RED
root (key 20), violating the root-is-Black invariant. -/
theorem C3_rb_delete_breaks_invariants :
    rbC3s7 = .ok rbC3final ∧
    RB.invariantsOk rbC3s6state = true ∧
    RB.invariantsOk rbC3final = false ∧
    RB.toCTree rbC3final rbC3final.nodes.size rbC3final.root =
      .cnode .red 20
        (.cnode .black 10 .leaf (.cnode .red 15 .leaf .leaf))
        (.cnode .black 25 .leaf (.cnode .red 30 .leaf .leaf)) :=
  ⟨rbC3s7_eq, by rfl, by rfl, by rfl⟩

/-- C4.  The claim states the recursive and the explicit-stack iterative
implementations of each depth-first traversal emit identical sequences on
every tree.  On the one-node tree built by `insert(1, "1")`, the
iterative in-order (whose stack is only seeded when the root has a right
child) emits NOTHING while the recursive one emits [(1, "1")]; the
iterative reverse in-order does the same, and the iterative post-order
never terminates (its loop has no exit once the stack is empty). -/
theorem C4_iterative_inorder_differs_from_recursive :
    oneNodeBST = .ok ⟨.node 1 "1" .nil .nil, 1⟩ ∧
    traversal.inorder_rec (.node 1 "1" .nil .nil) = [(1, "1")] ∧
    traversal.inorder_nr 64 (.node 1 "1" .nil .nil) = .ok [] ∧
    traversal.outorder_rec (.node 1 "1" .nil .nil) = [(1, "1")] ∧
    traversal.outorder_nr 64 (.node 1 "1" .nil .nil) = .ok [] ∧
    traversal.postorder_nr 64 (.node 1 "1" .nil .nil) = .error .outOfFuel ∧
    ([(1, "1")] : OutputType) ≠ [] :=
  ⟨rfl, rfl, rfl, rfl, rfl, rfl, by decide⟩

/-- C5.  The claim states `search(key)` returns the data of every pair
inserted and not subsequently deleted.  In the `bstFive` scenario the
pair (30, "30") is inserted and never deleted, all operations succeed,
yet after `delete(10)` the call `search(30)` raises `KeyError` (the
two-children deletion discarded the subtree holding 30). -/
theorem C5_search_after_delete_loses_surviving_pair :
    bstFive.map (fun t => traversal.inorder_rec t.root) =
      .ok [(5, "5"), (10, "10"), (20, "20"), (30, "30"), (50, "50")] ∧
    bstFiveSearch30 = .error .keyError :=
  ⟨rfl, rfl⟩

/-- C6.  The claim states a right-threaded tree and a plain BST given the
same successful inserts and deletes produce the same in-order sequence.
For inserts (50, 10, 5, 20, 30) and `delete(10)`, the threaded tree
correctly yields [(5, 20, 30, 50)] but the plain BST in-order is
[(5, 20, 50)]: the BST two-children deletion drops the subtree holding
30, so the two sequences differ. -/
theorem C6_threaded_inorder_differs_from_bst_inorder :
    RT.inorderOut 8 rtC6s6 =
      .ok [(5, "5"), (20, "20"), (30, "30"), (50, "50")] ∧
    bstFiveDel.map (fun t => traversal.inorder_rec t.root) =
      .ok [(5, "5"), (20, "20"), (50, "50")] ∧
    ([(5, "5"), (20, "20"), (30, "30"), (50, "50")] : OutputType) ≠
      [(5, "5"), (20, "20"), (50, "50")] :=
  ⟨rtC6inorder_eq, rfl, by decide⟩

/-- C7.  The claim states `search`/`delete` raise KeyNotFound exactly
when the key is absent, including on an empty tree and at the root.  The
code deviates three ways: `search` on an empty tree returns `None`
without raising (line 288); `delete` on an empty tree silently does
nothing (line 327); and `delete` of the ROOT key — present in the tree —
raises `ValueError("Node's parent cannot be None")` (line 330). -/
theorem C7_keynotfound_contract_violations :
    BST.search BST.emptyTree 5 = .ok none ∧
    BST.delete BST.emptyTree 5 = .ok BST.emptyTree ∧
    (do
      let t ← oneNodeBST
      BST.search t 1 : Except PyErr (Option String)) = .ok (some "1") ∧
    oneNodeDeleteRoot = .error .valueError :=
  ⟨rfl, rfl, rfl, rfl⟩

/-- C8 counterexample.  The claim states every tree variant raises
EmptyTree from `get_min()`/`get_max()` on an empty tree, but the plain
`BinarySearchTree` returns `None` for both (lines 394-395 and 400-401)
and raises nothing. -/
theorem C8_bst_get_min_returns_none_counterexample :
    BST.get_min BST.emptyTree = .ok none ∧
    BST.get_max BST.emptyTree = .ok none ∧
    BST.get_min BST.emptyTree ≠ .error .emptyTreeError ∧
    BST.get_max BST.emptyTree ≠ .error .emptyTreeError :=
  ⟨rfl, rfl, fun h => Except.noConfusion h, fun h => Except.noConfusion h⟩

/-- C8 as amended.  `RBTree.get_min()`/`get_max()` invoked with no
subtree argument on an empty tree raise EmptyTree; the plain
`BinarySearchTree` versions instead return `None`. -/
theorem C8_empty_tree_get_min_max_amended :
    rbGetMinEmpty = .error .emptyTreeError ∧
    rbGetMaxEmpty = .error .emptyTreeError ∧
    BST.get_min BST.emptyTree = .ok none ∧
    BST.get_max BST.emptyTree = .ok none :=
  ⟨rfl, rfl, rfl, rfl⟩

/-- C9 counterexample.  The claim states `get_height()` returns 3 after
the four deletions; the code computes 2 (its height convention counts
edges, with a childless node at height 0, and the remaining tree is
23(4(1, 11), 30(24, 34))). -/
theorem C9_get_height_counterexample :
    bstScenarioDel.map BST.get_height = .ok 2 ∧
    bstScenarioDel.map BST.get_height ≠ .ok 3 := by
  refine ⟨rfl, fun h => ?_⟩
  rw [show bstScenarioDel.map BST.get_height = .ok 2 from rfl] at h
  injection h with h2
  exact absurd h2 (by decide)

/-- C9 as amended.  Level-order on the 11-key tree yields exactly the
claimed sequence, and after `delete(15)`, `delete(22)`, `delete(7)`,
`delete(20)` the tree satisfies `get_height() = 2` (not 3) and
`is_balance() = True`. -/
theorem C9_scenario_amended :
    bstScenario.map (fun t => traversal.levelorder_traverse 64 t.root) =
      .ok (.ok [(23, "23"), (4, "4"), (30, "30"), (1, "1"), (11, "11"),
                (24, "24"), (34, "34"), (7, "7"), (20, "20"), (15, "15"), (22, "22")]) ∧
    bstScenarioDel.map BST.get_height = .ok 2 ∧
    bstScenarioDel.map BST.is_balance = .ok true :=
  ⟨rfl, rfl, rfl⟩

/-- C10.  `levelorder_traverse` seeds its queue with `tree.root`
unconditionally, so on an empty tree (root = None) the first dequeue
dereferences `None` and crashes with an AttributeError, for any amount of
loop fuel; every other traversal function — the four recursive ones and
the four iterative ones — returns the empty sequence on the empty
tree. -/
theorem C10_levelorder_crashes_on_empty_tree :
    (∀ fuel : Nat, traversal.levelorder_traverse (fuel + 1) BTree.nil =
      .error .attributeError) ∧
    traversal.inorder_rec .nil = [] ∧
    traversal.outorder_rec .nil = [] ∧
    traversal.preorder_rec .nil = [] ∧
    traversal.postorder_rec .nil = [] ∧
    (∀ fuel : Nat, traversal.inorder_nr fuel .nil = .ok []) ∧
    (∀ fuel : Nat, traversal.outorder_nr fuel .nil = .ok []) ∧
    (∀ fuel : Nat, traversal.preorder_nr fuel .nil = .ok []) ∧
    (∀ fuel : Nat, traversal.postorder_nr fuel .nil = .ok []) :=
  ⟨fun _ => rfl, rfl, rfl, rfl, rfl,
   fun _ => rfl, fun _ => rfl, fun _ => rfl, fun _ => rfl⟩
